import Mathlib

/-!
Verification model of the 3Bay payment-monitoring server (`src/server.ts`)
and its `PriceCacheService`.

The TypeScript source is shallowly embedded: JavaScript numbers relevant to
the validation logic are modelled by `JsNum` (NaN, ±Infinity, or a finite
value as a rational), the `activePayments` `Map` by an association list with
`Map` set/delete semantics, and the effect of `setTimeout` /
`clearTimeout` / feed subscriptions by explicit sets of live timer and
watcher handles inside a `ServerState`.  Each callback of the source
(`setTimeout` callback, the `onMatch` transaction callback, the HTTP
handler) becomes a state-transition function, and executions are modelled
by composing those functions.
-/

namespace ThreeBay

/-- A JavaScript number as far as the server's logic inspects it:
`NaN`, `+Infinity`, `-Infinity`, or a finite value (modelled as a rational). -/
inductive JsNum where
  | nan : JsNum
  | posInf : JsNum
  | negInf : JsNum
  | fin (q : ℚ) : JsNum
deriving DecidableEq, Repr

/-- A JSON body field as `typeof` sees it: a number, or some non-number value. -/
inductive JsVal where
  | num (x : JsNum) : JsVal
  | notNum : JsVal
deriving DecidableEq, Repr

/-- JavaScript `x <= y` on our number model: any comparison with NaN is false,
`-Infinity` is below everything else, `+Infinity` above everything else. -/
def JsNum.jsLe : JsNum → JsNum → Bool
  | .nan, _ => false
  | _, .nan => false
  | .negInf, _ => true
  | _, .posInf => true
  | .posInf, _ => false
  | .fin _, .negInf => false
  | .fin q, .fin r => q ≤ r

/-- JavaScript `isNaN(x)` restricted to numbers. -/
def JsNum.isNan : JsNum → Bool
  | .nan => true
  | _ => false

/-- The amount validation of `initiatePaymentHandler` (server.ts:128):
`typeof amount !== 'number' || amount <= 0 || isNaN(amount)`. -/
def amountInvalid : JsVal → Bool
  | .notNum => true
  | .num x => x.jsLe (.fin 0) || x.isNan

/-- The `type` field of a WebSocket broadcast message. -/
inductive MsgType where
  | status : MsgType
  | payment_success : MsgType
  | payment_failure : MsgType
  | transaction_confirmed : MsgType
deriving DecidableEq, Repr

/-- A broadcast message as the claims inspect it: its `type`, its optional
`errorType` field, and whether it carries `isError: true`. -/
structure Msg where
  type : MsgType
  errorType : Option String
  isError : Bool
deriving DecidableEq, Repr

/-- The advisory (`status`, `isError: true`) broadcast sent on validation failure. -/
def advisoryMsg : Msg := ⟨.status, none, true⟩

/-- The `payment_failure` broadcast with a given `errorType`. -/
def failureMsg (errorType : String) : Msg := ⟨.payment_failure, some errorType, false⟩

/-- `Map.get` on an association list. -/
def mapGet {α : Type} (m : List (String × α)) (k : String) : Option α :=
  (m.find? (fun p => p.1 = k)).map Prod.snd

/-- `Map.set` on an association list: the key is bound to exactly this value
afterwards (any previous binding is replaced). -/
def mapSet {α : Type} (m : List (String × α)) (k : String) (v : α) :
    List (String × α) :=
  (k, v) :: m.filter (fun p => p.1 ≠ k)

/-- `Map.delete` on an association list. -/
def mapDelete {α : Type} (m : List (String × α)) (k : String) :
    List (String × α) :=
  m.filter (fun p => p.1 ≠ k)

/-- One entry of `activePayments` (server.ts:38-43): the `PaymentSession`
interface.  `timeout` holds the handle of the session's `setTimeout` timer. -/
structure PaymentSession where
  amount : JsNum
  merchantAddress : String
  startTime : ℤ
  timeout : ℕ
deriving DecidableEq, Repr

/-- The mutable state of the payment subsystem: the `activePayments` map, the
set of timeout timers that are armed and have neither fired nor been cleared
(`liveTimers`, each with the merchant address its callback closed over), the
set of live feed subscriptions (`liveWatchers`, each with the address and the
expected amount its `onMatch` callback closed over), the ordered log of
`broadcast` calls, and a counter supplying fresh timer/watcher handles. -/
structure ServerState where
  activePayments : List (String × PaymentSession)
  liveTimers : List (ℕ × String)
  liveWatchers : List (ℕ × String × JsNum)
  broadcastLog : List Msg
  nextId : ℕ
deriving DecidableEq, Repr

/-- The state at server start: no sessions, no timers, no watchers. -/
def initialServerState : ServerState :=
  { activePayments := [], liveTimers := [], liveWatchers := [],
    broadcastLog := [], nextId := 0 }

/-- `monitorTransaction` (server.ts:84-124) up to the completion of the
subscription attempt.  It arms the 5-minute timeout timer, stores the session
in `activePayments` (a plain `Map.set`, overwriting any previous session for
the address), and then awaits the feed subscription; `setupOk = false` models
`AlchemyService.monitorTransactions` throwing, in which case the `catch`
block clears the timer, deletes the session, broadcasts a
`MONITORING_ERROR` failure and rethrows (the returned flag is `false`). -/
def monitorTransaction (st : ServerState) (merchantAddress : String)
    (amount : JsNum) (startTime : ℤ) (setupOk : Bool) : ServerState × Bool :=
  let timerId := st.nextId
  let st1 : ServerState :=
    { st with
      liveTimers := (timerId, merchantAddress) :: st.liveTimers,
      activePayments := mapSet st.activePayments merchantAddress
        ⟨amount, merchantAddress, startTime, timerId⟩,
      nextId := st.nextId + 1 }
  if setupOk then
    let watcherId := st1.nextId
    ({ st1 with
        liveWatchers := (watcherId, merchantAddress, amount) :: st1.liveWatchers,
        nextId := st1.nextId + 1 }, true)
  else
    ({ st1 with
        liveTimers := st1.liveTimers.filter (fun t => t.1 ≠ timerId),
        activePayments := mapDelete st1.activePayments merchantAddress,
        broadcastLog := st1.broadcastLog ++ [failureMsg "MONITORING_ERROR"] },
      false)

/-- The timeout callback armed by `monitorTransaction` (server.ts:88-92)
firing for the timer `timerId` whose closure captured `merchantAddress`:
it broadcasts a `PAYMENT_TIMEOUT` failure and deletes the address's session;
firing consumes the timer. -/
def timeoutFire (st : ServerState) (timerId : ℕ) (merchantAddress : String) :
    ServerState :=
  { st with
    liveTimers := st.liveTimers.filter (fun t => t.1 ≠ timerId),
    broadcastLog := st.broadcastLog ++ [failureMsg "PAYMENT_TIMEOUT"],
    activePayments := mapDelete st.activePayments merchantAddress }

/-- The `onMatch` callback of `monitorTransaction` (server.ts:103-113)
receiving a feed event of value `txValue`.  The closure captured
`merchantAddress`, `amount` and the timer handle `timerId` of the call that
created it.  If `tx.value >= amount` it clears the timer, deletes the
session and broadcasts `transaction_confirmed`; otherwise it does nothing.
The subscription itself stays live either way. -/
def feedEvent (st : ServerState) (merchantAddress : String) (amount : JsNum)
    (timerId : ℕ) (txValue : JsNum) : ServerState :=
  if amount.jsLe txValue then
    { st with
      liveTimers := st.liveTimers.filter (fun t => t.1 ≠ timerId),
      activePayments := mapDelete st.activePayments merchantAddress,
      broadcastLog := st.broadcastLog ++ [⟨.transaction_confirmed, none, false⟩] }
  else st

/-- The result of `nfcApp.processPayment` as the handler consumes it:
resolved with `success: true`, resolved with `success: false` and an
`errorType`, or rejected/thrown. -/
inductive InitResult where
  | success (message : String) : InitResult
  | failure (message : String) (errorType : String) : InitResult
  | thrown : InitResult
deriving DecidableEq, Repr

/-- The JSON body of the HTTP response, by shape. -/
inductive RespBody where
  | errBody : RespBody
  | okBody (message : String) : RespBody
  | failBody (message : String) (errorType : String) : RespBody
deriving DecidableEq, Repr

/-- `initiatePaymentHandler` (server.ts:126-166) on one request, for the
synchronous execution in which no other callback interleaves between its
awaits.  `amount` and `merchantAddress` come from the request body;
`addrValid` is the verdict of `AlchemyService.isEthereumAddress` (an
external capability); `setupOk` tells whether the feed subscription attempt
succeeds; `pay` is the initiator's result.  Returns the final state, the
HTTP status code and the response body shape. -/
def initiatePaymentHandler (st : ServerState) (amount : JsVal)
    (merchantAddress : String) (addrValid : Bool) (startTime : ℤ)
    (setupOk : Bool) (pay : InitResult) : ServerState × ℕ × RespBody :=
  if amountInvalid amount then
    ({ st with broadcastLog := st.broadcastLog ++ [advisoryMsg] }, 400, .errBody)
  else if merchantAddress = "" || !addrValid then
    ({ st with broadcastLog := st.broadcastLog ++ [advisoryMsg] }, 400, .errBody)
  else
    let amt : JsNum := match amount with
      | .num x => x
      | .notNum => .nan
    let st1 : ServerState :=
      { st with broadcastLog := st.broadcastLog ++ [⟨.status, none, false⟩] }
    let r := monitorTransaction st1 merchantAddress amt startTime setupOk
    if r.2 then
      match pay with
      | .success m =>
          ({ r.1 with
              broadcastLog := r.1.broadcastLog ++ [⟨.payment_success, none, false⟩] },
            200, .okBody m)
      | .failure m et =>
          ({ r.1 with broadcastLog := r.1.broadcastLog ++ [failureMsg et] },
            (if et = "PHONE_MOVED_TOO_QUICKLY" then 409 else 500), .failBody m et)
      | .thrown =>
          ({ r.1 with broadcastLog := r.1.broadcastLog ++ [failureMsg "SERVER_ERROR"] },
            500, .errBody)
    else
      ({ r.1 with broadcastLog := r.1.broadcastLog ++ [failureMsg "SERVER_ERROR"] },
        500, .errBody)

/-- One entry of `PriceCacheService.cachedPrices` (server.ts:254): a fetched
price with the `Date.now()` timestamp at which it was stored. -/
structure PriceEntry where
  price : ℚ
  timestamp : ℤ
deriving DecidableEq, Repr

/-- `PriceCacheService.REFRESH_INTERVAL_MS` (server.ts:256): one minute, which
also serves as the cache TTL in `getCachedPrice`. -/
def REFRESH_INTERVAL_MS : ℤ := 60000

/-- The static state of `PriceCacheService`: the price map, the
`refreshInterval` handle (if a periodic refresh is scheduled), the set of
interval timers that are scheduled and not yet cleared, and a counter
supplying fresh handles. -/
structure PriceCacheState where
  cachedPrices : List (String × PriceEntry)
  refreshInterval : Option ℕ
  liveIntervals : List ℕ
  nextId : ℕ
deriving DecidableEq, Repr

/-- The price-cache state before `initialize` is ever called. -/
def initialPriceCacheState : PriceCacheState :=
  { cachedPrices := [], refreshInterval := none, liveIntervals := [], nextId := 0 }

/-- `PriceCacheService.getCachedPrice` (server.ts:274-283): the cached price
when an entry exists and `Date.now() - timestamp < REFRESH_INTERVAL_MS`,
otherwise the sentinel `0`. -/
def getCachedPrice (st : PriceCacheState) (now : ℤ) (symbol : String) : ℚ :=
  match mapGet st.cachedPrices symbol with
  | some cached => if now - cached.timestamp < REFRESH_INTERVAL_MS then cached.price else 0
  | none => 0

/-- One loop iteration of `fetchAndCacheAllPrices` (server.ts:289-302) for a
single `coinId`: `usd` is `data[coinId]?.usd` when the fetch resolved and the
field is present (`none` models a thrown fetch or a missing field).  The
body's truthiness guard `if (data[coinId]?.usd)` stores the price only when
it is present and nonzero, stamping it with the current time. -/
def cacheFetchResult (st : PriceCacheState) (coinId : String) (usd : Option ℚ)
    (now : ℤ) : PriceCacheState :=
  match usd with
  | some price =>
      if price ≠ 0 then
        { st with cachedPrices := mapSet st.cachedPrices coinId ⟨price, now⟩ }
      else st
  | none => st

/-- `fetchAndCacheAllPrices` over the whole list of coin ids, each with its
fetch outcome, all stamped at `now`. -/
def fetchAndCacheAllPrices (st : PriceCacheState)
    (fetches : List (String × Option ℚ)) (now : ℤ) : PriceCacheState :=
  fetches.foldl (fun s f => cacheFetchResult s f.1 f.2 now) st

/-- `PriceCacheService.startPeriodicRefresh` (server.ts:264-272): if a
`refreshInterval` is already scheduled it is cleared first, then a fresh
interval is scheduled and recorded. -/
def startPeriodicRefresh (st : PriceCacheState) : PriceCacheState :=
  let st1 : PriceCacheState :=
    match st.refreshInterval with
    | some id =>
        { st with
          liveIntervals := st.liveIntervals.filter (fun i => i ≠ id),
          refreshInterval := none }
    | none => st
  { st1 with
    refreshInterval := some st1.nextId,
    liveIntervals := st1.nextId :: st1.liveIntervals,
    nextId := st1.nextId + 1 }

/-- `PriceCacheService.initialize` (server.ts:258-262): one synchronous full
refresh, then `startPeriodicRefresh`. -/
def initCache (st : PriceCacheState) (fetches : List (String × Option ℚ))
    (now : ℤ) : PriceCacheState :=
  startPeriodicRefresh (fetchAndCacheAllPrices st fetches now)

/-- `PriceCacheService.stop` (server.ts:312-318): clears the scheduled
interval, if any. -/
def stop (st : PriceCacheState) : PriceCacheState :=
  match st.refreshInterval with
  | some id =>
      { st with
        liveIntervals := st.liveIntervals.filter (fun i => i ≠ id),
        refreshInterval := none }
  | none => st

/-- A connected WebSocket client as `broadcast` inspects it: its identity,
whether `readyState === WebSocket.OPEN`, and whether `send` would throw. -/
structure Sink where
  id : ℕ
  isOpen : Bool
  sendFails : Bool
deriving DecidableEq, Repr

/-- What happened to one sink during a `broadcast` call. -/
inductive DeliveryOutcome where
  | delivered : DeliveryOutcome
  | skippedClosed : DeliveryOutcome
  | errorCaught : DeliveryOutcome
deriving DecidableEq, Repr

/-- One iteration of the `clients.forEach` body in `broadcast`
(server.ts:69-77): a closed sink is skipped, an open sink whose `send`
throws has the error caught and logged, otherwise the message is delivered. -/
def deliverOne (c : Sink) : DeliveryOutcome :=
  if c.isOpen then
    if c.sendFails then .errorCaught else .delivered
  else .skippedClosed

/-- `broadcast` (server.ts:67-78): iterates every registered client,
attempting delivery to each.  It returns the client set afterwards (the
function never mutates `clients`) together with the per-sink outcomes. -/
def broadcast (clients : List Sink) : List Sink × List (ℕ × DeliveryOutcome) :=
  (clients, clients.map (fun c => (c.id, deliverOne c)))

/-! ### Helper lemmas about the association-list `Map` operations -/

theorem mapGet_filter_of_ne {α : Type} (m : List (String × α)) (k : String)
    (f : String × α → Bool) (hf : ∀ p, f p = true → p.1 ≠ k) :
    mapGet (m.filter f) k = none := by
  have hfind : (m.filter f).find? (fun p => p.1 = k) = none := by
    rw [List.find?_eq_none]
    intro x hx
    have hx2 := (List.mem_filter.mp hx).2
    simpa using hf x hx2
  simp [mapGet, hfind]

theorem mapGet_mapDelete {α : Type} (m : List (String × α)) (k : String) :
    mapGet (mapDelete m k) k = none :=
  mapGet_filter_of_ne m k _ (fun p hp => by simpa using hp)

theorem mapGet_mapSet_self {α : Type} (m : List (String × α)) (k : String) (v : α) :
    mapGet (mapSet m k v) k = some v := by
  simp [mapGet, mapSet, List.find?_cons_of_pos]

theorem filter_ne_of_lt (l : List (ℕ × String)) (n : ℕ)
    (h : ∀ p ∈ l, p.1 < n) : l.filter (fun t => t.1 ≠ n) = l := by
  apply List.filter_eq_self.mpr
  intro a ha
  simpa using Nat.ne_of_lt (h a ha)

/-! ### The claims -/

/-- C1 (amended): for every request whose `amount` is not a number, is `<= 0`,
or is `NaN`, `initiatePaymentHandler` responds 400 with an error body,
creates no session, arms no timer and no watcher, and emits exactly one
advisory (`status`, `isError`) broadcast.  (The claim's further case of a
non-finite amount is refuted by `c1_counterexample`: `+Infinity` passes the
validation `typeof amount !== 'number' || amount <= 0 || isNaN(amount)`.) -/
theorem c1_invalid_amount_rejected (st : ServerState) (amount : JsVal)
    (merchantAddress : String) (addrValid : Bool) (startTime : ℤ)
    (setupOk : Bool) (pay : InitResult)
    (h : amountInvalid amount = true) :
    initiatePaymentHandler st amount merchantAddress addrValid startTime setupOk pay =
      ({ st with broadcastLog := st.broadcastLog ++ [advisoryMsg] }, 400, .errBody) := by
  simp [initiatePaymentHandler, h]

/-- Witness for C1's amended theorem at the concrete invalid amount `-5`. -/
theorem c1_witness :
    initiatePaymentHandler initialServerState (.num (.fin (-5))) "0xabc" true 0 true
        (.success "ok") =
      ({ initialServerState with
          broadcastLog := initialServerState.broadcastLog ++ [advisoryMsg] },
        400, .errBody) :=
  c1_invalid_amount_rejected initialServerState (.num (.fin (-5))) "0xabc" true 0 true
    (.success "ok") (by decide)

/-- C1 is false as stated: `+Infinity` is a non-finite amount, yet the request
`{amount: Infinity, merchantAddress: "0xabc"}` is not rejected — the handler
responds 200 and a session for the address is created in the registry. -/
theorem c1_counterexample :
    (initiatePaymentHandler initialServerState (.num .posInf) "0xabc" true 0 true
        (.success "ok")).2.1 = 200 ∧
    mapGet (initiatePaymentHandler initialServerState (.num .posInf) "0xabc" true 0 true
        (.success "ok")).1.activePayments "0xabc" =
      some ⟨.posInf, "0xabc", 0, 0⟩ := by
  constructor <;> rfl

/-- C2: the code violates the claim.  Two `initiatePayment` requests for the
same merchant address, the second arriving while the first session is still
pending, leave TWO live timeout timers for that address: `monitorTransaction`
overwrites the `activePayments` entry (so the registry holds one session)
without clearing the first session's timer or watcher. -/
theorem c2_two_live_timers :
    (((monitorTransaction ((monitorTransaction initialServerState "addr1" (.fin 25) 0
          true).1) "addr1" (.fin 10) 5 true).1.liveTimers.filter
        (fun t => t.2 = "addr1")).length = 2) ∧
    ((monitorTransaction ((monitorTransaction initialServerState "addr1" (.fin 25) 0
          true).1) "addr1" (.fin 10) 5 true).1.activePayments.length = 1) := by
  constructor <;> rfl

/-- C3: the code violates the claim.  After a matching feed event confirms the
session for `addr1` (the entry is deleted — the terminal state), the watcher
subscription is still live, and a second matching feed event broadcasts
`transaction_confirmed` again instead of being a no-op. -/
theorem c3_rebroadcast_after_terminal :
    (mapGet (feedEvent ((monitorTransaction initialServerState "addr1" (.fin 25) 0
          true).1) "addr1" (.fin 25) 0 (.fin 25)).activePayments "addr1" = none) ∧
    ((1, "addr1", JsNum.fin 25) ∈
      (feedEvent ((monitorTransaction initialServerState "addr1" (.fin 25) 0
          true).1) "addr1" (.fin 25) 0 (.fin 25)).liveWatchers) ∧
    ((feedEvent (feedEvent ((monitorTransaction initialServerState "addr1" (.fin 25) 0
          true).1) "addr1" (.fin 25) 0 (.fin 25)) "addr1" (.fin 25) 0
        (.fin 25)).broadcastLog =
      [⟨.transaction_confirmed, none, false⟩, ⟨.transaction_confirmed, none, false⟩]) := by
  refine ⟨rfl, ?_, rfl⟩
  decide

/-- C4: the code violates the claim.  A terminal transition cancels the timer
and removes the registry entry, but never cancels the watcher subscription:
after the confirmation transition for `addr1` the session is gone and the
timer cleared, yet the watcher is still subscribed; likewise after the
timeout transition. -/
theorem c4_watcher_not_cancelled :
    (mapGet (feedEvent ((monitorTransaction initialServerState "addr1" (.fin 25) 0
          true).1) "addr1" (.fin 25) 0 (.fin 25)).activePayments "addr1" = none) ∧
    ((feedEvent ((monitorTransaction initialServerState "addr1" (.fin 25) 0
          true).1) "addr1" (.fin 25) 0 (.fin 25)).liveTimers = []) ∧
    ((feedEvent ((monitorTransaction initialServerState "addr1" (.fin 25) 0
          true).1) "addr1" (.fin 25) 0 (.fin 25)).liveWatchers =
      [(1, "addr1", .fin 25)]) ∧
    ((timeoutFire ((monitorTransaction initialServerState "addr1" (.fin 25) 0
          true).1) 0 "addr1").liveWatchers = [(1, "addr1", .fin 25)]) := by
  refine ⟨rfl, ?_, ?_, ?_⟩ <;> decide

/-- C5: the `onMatch` callback takes the confirmation path (clear timer,
delete session, broadcast `transaction_confirmed`) exactly when the event's
`value >= amount`; an event whose value is below the expected amount leaves
the whole state unchanged and broadcasts nothing. -/
theorem c5_threshold (st : ServerState) (merchantAddress : String)
    (amount txValue : JsNum) (timerId : ℕ) :
    (amount.jsLe txValue = true →
      (feedEvent st merchantAddress amount timerId txValue).broadcastLog =
        st.broadcastLog ++ [⟨.transaction_confirmed, none, false⟩] ∧
      mapGet (feedEvent st merchantAddress amount timerId
          txValue).activePayments merchantAddress = none) ∧
    (amount.jsLe txValue = false →
      feedEvent st merchantAddress amount timerId txValue = st) := by
  constructor
  · intro h
    refine ⟨by simp [feedEvent, h], ?_⟩
    simp only [feedEvent, h, if_true]
    exact mapGet_mapDelete st.activePayments merchantAddress
  · intro h
    simp [feedEvent, h]

/-- Witness for C5 at concrete inputs: a $30 event confirms a $25 session and
deletes it; a $10 event leaves the state untouched. -/
theorem c5_witness :
    ((feedEvent initialServerState "addr1" (.fin 25) 0 (.fin 30)).broadcastLog =
      initialServerState.broadcastLog ++ [⟨.transaction_confirmed, none, false⟩]) ∧
    (feedEvent initialServerState "addr1" (.fin 25) 0 (.fin 10) = initialServerState) :=
  ⟨((c5_threshold initialServerState "addr1" (.fin 25) (.fin 30) 0).1 (by decide)).1,
    (c5_threshold initialServerState "addr1" (.fin 25) (.fin 10) 0).2 (by decide)⟩

/-- C6: `getCachedPrice` returns the cached price exactly when an entry for
the asset exists and its fetch landed strictly less than the TTL
(`REFRESH_INTERVAL_MS`, the 60s refresh period) before the call; when the
entry is absent or stale it returns the zero sentinel; and a successful
refresh stamps the entry with the current time, so its effective age
restarts at zero and the fresh price is served throughout the next window. -/
theorem c6_price_cache_ttl (st : PriceCacheState) (now : ℤ) (symbol : String) :
    (∀ e : PriceEntry, mapGet st.cachedPrices symbol = some e →
      (now - e.timestamp < REFRESH_INTERVAL_MS →
        getCachedPrice st now symbol = e.price) ∧
      (REFRESH_INTERVAL_MS ≤ now - e.timestamp →
        getCachedPrice st now symbol = 0)) ∧
    (mapGet st.cachedPrices symbol = none → getCachedPrice st now symbol = 0) ∧
    (∀ p : ℚ, p ≠ 0 → ∀ t : ℤ, t - now < REFRESH_INTERVAL_MS →
      getCachedPrice (cacheFetchResult st symbol (some p) now) t symbol = p) := by
  refine ⟨?_, ?_, ?_⟩
  · intro e he
    constructor
    · intro hfresh
      simp [getCachedPrice, he, hfresh]
    · intro hstale
      simp [getCachedPrice, he, not_lt.mpr hstale]
  · intro he
    simp [getCachedPrice, he]
  · intro p hp t ht
    simp [cacheFetchResult, hp, getCachedPrice, mapGet_mapSet_self, ht]

/-- Witness for C6: a fresh entry is served, a 60s-old entry yields the
sentinel, a missing entry yields the sentinel, and a refresh at the stale
instant restarts the age so the new price is served. -/
theorem c6_witness :
    (getCachedPrice ⟨[("polkadot", ⟨7, 1000⟩)], none, [], 0⟩ 2000 "polkadot" = 7) ∧
    (getCachedPrice ⟨[("polkadot", ⟨7, 1000⟩)], none, [], 0⟩ 61000 "polkadot" = 0) ∧
    (getCachedPrice ⟨[], none, [], 0⟩ 0 "polkadot" = 0) ∧
    (getCachedPrice (cacheFetchResult ⟨[("polkadot", ⟨7, 1000⟩)], none, [], 0⟩
        "polkadot" (some 9) 61000) 61000 "polkadot" = 9) :=
  ⟨((c6_price_cache_ttl ⟨[("polkadot", ⟨7, 1000⟩)], none, [], 0⟩ 2000 "polkadot").1
      ⟨7, 1000⟩ rfl).1 (by decide),
   ((c6_price_cache_ttl ⟨[("polkadot", ⟨7, 1000⟩)], none, [], 0⟩ 61000 "polkadot").1
      ⟨7, 1000⟩ rfl).2 (by decide),
   (c6_price_cache_ttl ⟨[], none, [], 0⟩ 0 "polkadot").2.1 rfl,
   (c6_price_cache_ttl ⟨[("polkadot", ⟨7, 1000⟩)], none, [], 0⟩ 61000 "polkadot").2.2
      9 (by decide) 61000 (by decide)⟩

/-- The `catch` block of `monitorTransaction` (server.ts:117-123): when the
subscription attempt throws, the timer just armed is cleared (so, with fresh
timer handles, the live-timer set is exactly what it was), the session is
deleted, a `MONITORING_ERROR` failure is broadcast, and the error is
rethrown. -/
theorem monitorTransaction_fail (st : ServerState) (a : String) (amt : JsNum)
    (t0 : ℤ) (hfresh : ∀ p ∈ st.liveTimers, p.1 < st.nextId) :
    monitorTransaction st a amt t0 false =
      ({ st with
          activePayments := mapDelete st.activePayments a,
          broadcastLog := st.broadcastLog ++ [failureMsg "MONITORING_ERROR"],
          nextId := st.nextId + 1 }, false) := by
  have htimers : ((st.nextId, a) :: st.liveTimers).filter
      (fun t => t.1 ≠ st.nextId) = st.liveTimers := by
    rw [List.filter_cons]
    simp only [ne_eq, not_true_eq_false, decide_False, if_false]
    exact filter_ne_of_lt st.liveTimers st.nextId hfresh
  have hpay : mapDelete (mapSet st.activePayments a ⟨amt, a, t0, st.nextId⟩) a =
      mapDelete st.activePayments a := by
    unfold mapDelete mapSet
    rw [List.filter_cons]
    simp [List.filter_filter]
  simp only [monitorTransaction, Bool.false_eq_true, if_false, htimers, hpay]

/-- C7: when the feed-subscription setup fails, the cleanup is the same as a
session cancel: the timer armed for the session is cleared, the session is
removed from the registry, observers receive a `payment_failure`
(`MONITORING_ERROR`) broadcast, and the error is rethrown; through the HTTP
handler the rethrown error is caught, a further `payment_failure`
(`SERVER_ERROR`) broadcast is emitted and the response is 500 — so no error
escapes without the session ending and observers being notified. -/
theorem c7_setup_failure (st : ServerState) (merchantAddress : String)
    (amount : JsNum) (startTime : ℤ) (pay : InitResult) (x : JsNum)
    (hfresh : ∀ p ∈ st.liveTimers, p.1 < st.nextId)
    (hamt : amountInvalid (.num x) = false) (haddr : ¬ merchantAddress = "") :
    ((monitorTransaction st merchantAddress amount startTime false).1.liveTimers =
      st.liveTimers) ∧
    (mapGet (monitorTransaction st merchantAddress amount startTime
        false).1.activePayments merchantAddress = none) ∧
    ((monitorTransaction st merchantAddress amount startTime false).1.broadcastLog =
      st.broadcastLog ++ [failureMsg "MONITORING_ERROR"]) ∧
    ((monitorTransaction st merchantAddress amount startTime false).2 = false) ∧
    ((initiatePaymentHandler st (.num x) merchantAddress true startTime false
        pay).2.1 = 500) ∧
    (mapGet (initiatePaymentHandler st (.num x) merchantAddress true startTime false
        pay).1.activePayments merchantAddress = none) ∧
    ((initiatePaymentHandler st (.num x) merchantAddress true startTime false
        pay).1.liveTimers = st.liveTimers) ∧
    ((initiatePaymentHandler st (.num x) merchantAddress true startTime false
        pay).1.liveWatchers = st.liveWatchers) ∧
    ((initiatePaymentHandler st (.num x) merchantAddress true startTime false
        pay).1.broadcastLog =
      st.broadcastLog ++ [⟨.status, none, false⟩, failureMsg "MONITORING_ERROR",
        failureMsg "SERVER_ERROR"]) := by
  have hmt := monitorTransaction_fail st merchantAddress amount startTime hfresh
  have hmt2 := monitorTransaction_fail
    { st with broadcastLog := st.broadcastLog ++ [⟨.status, none, false⟩] }
    merchantAddress x startTime hfresh
  refine ⟨by rw [hmt], by rw [hmt]; exact mapGet_mapDelete _ _, by rw [hmt],
    by rw [hmt], ?_, ?_, ?_, ?_, ?_⟩ <;>
    simp [initiatePaymentHandler, hamt, haddr, hmt2, mapGet_mapDelete]

/-- Witness for C7 at a concrete state with one unrelated live timer: setup
failure for `0xmerchant` leaves that timer, removes the session, broadcasts
the two failures and responds 500. -/
theorem c7_witness :
    ((monitorTransaction ⟨[], [(0, "other")], [], [], 1⟩ "0xmerchant" (.fin 25) 0
        false).1.liveTimers = [(0, "other")]) ∧
    (mapGet (monitorTransaction ⟨[], [(0, "other")], [], [], 1⟩ "0xmerchant" (.fin 25)
        0 false).1.activePayments "0xmerchant" = none) ∧
    ((monitorTransaction ⟨[], [(0, "other")], [], [], 1⟩ "0xmerchant" (.fin 25) 0
        false).1.broadcastLog = [] ++ [failureMsg "MONITORING_ERROR"]) ∧
    ((monitorTransaction ⟨[], [(0, "other")], [], [], 1⟩ "0xmerchant" (.fin 25) 0
        false).2 = false) ∧
    ((initiatePaymentHandler ⟨[], [(0, "other")], [], [], 1⟩ (.num (.fin 25))
        "0xmerchant" true 0 false (.success "ok")).2.1 = 500) ∧
    (mapGet (initiatePaymentHandler ⟨[], [(0, "other")], [], [], 1⟩ (.num (.fin 25))
        "0xmerchant" true 0 false (.success "ok")).1.activePayments "0xmerchant" =
      none) ∧
    ((initiatePaymentHandler ⟨[], [(0, "other")], [], [], 1⟩ (.num (.fin 25))
        "0xmerchant" true 0 false (.success "ok")).1.liveTimers = [(0, "other")]) ∧
    ((initiatePaymentHandler ⟨[], [(0, "other")], [], [], 1⟩ (.num (.fin 25))
        "0xmerchant" true 0 false (.success "ok")).1.liveWatchers = []) ∧
    ((initiatePaymentHandler ⟨[], [(0, "other")], [], [], 1⟩ (.num (.fin 25))
        "0xmerchant" true 0 false (.success "ok")).1.broadcastLog =
      [] ++ [⟨.status, none, false⟩, failureMsg "MONITORING_ERROR",
        failureMsg "SERVER_ERROR"]) :=
  c7_setup_failure ⟨[], [(0, "other")], [], [], 1⟩ "0xmerchant" (.fin 25) 0
    (.success "ok") (.fin 25) (by decide) (by decide) (by decide)

/-- C8 (amended): `broadcast` attempts delivery to every registered sink —
every open, non-failing sink receives the message regardless of the other
sinks, a closed sink is skipped, and a sink whose `send` throws has the
error caught (so nothing propagates to the caller and every sink gets an
outcome) — but the registered client set is not modified by `broadcast`;
removal of failed sinks happens only in the connection `close`/`error`
handlers, not here. -/
theorem c8_broadcast_isolation (clients : List Sink) :
    ((broadcast clients).1 = clients) ∧
    ((broadcast clients).2.length = clients.length) ∧
    (∀ c ∈ clients, c.isOpen = true → c.sendFails = false →
      (c.id, DeliveryOutcome.delivered) ∈ (broadcast clients).2) ∧
    (∀ c ∈ clients, c.isOpen = false →
      (c.id, DeliveryOutcome.skippedClosed) ∈ (broadcast clients).2) ∧
    (∀ c ∈ clients, c.isOpen = true → c.sendFails = true →
      (c.id, DeliveryOutcome.errorCaught) ∈ (broadcast clients).2) := by
  refine ⟨rfl, by simp [broadcast], ?_, ?_, ?_⟩
  · intro c hc h1 h2
    have hd : (c.id, DeliveryOutcome.delivered) = (c.id, deliverOne c) := by
      simp [deliverOne, h1, h2]
    rw [hd]
    exact List.mem_map_of_mem _ hc
  · intro c hc h1
    have hd : (c.id, DeliveryOutcome.skippedClosed) = (c.id, deliverOne c) := by
      simp [deliverOne, h1]
    rw [hd]
    exact List.mem_map_of_mem _ hc
  · intro c hc h1 h2
    have hd : (c.id, DeliveryOutcome.errorCaught) = (c.id, deliverOne c) := by
      simp [deliverOne, h1, h2]
    rw [hd]
    exact List.mem_map_of_mem _ hc

/-- Witness for C8's amended theorem: with one open and one closed sink the
open sink is delivered to and the set is returned unchanged. -/
theorem c8_witness :
    (((0 : ℕ), DeliveryOutcome.delivered) ∈
      (broadcast [⟨0, true, false⟩, ⟨1, false, false⟩]).2) ∧
    ((broadcast [⟨0, true, false⟩, ⟨1, false, false⟩]).1 =
      [⟨0, true, false⟩, ⟨1, false, false⟩]) :=
  ⟨(c8_broadcast_isolation [⟨0, true, false⟩, ⟨1, false, false⟩]).2.2.1
      ⟨0, true, false⟩ (by decide) rfl rfl,
    (c8_broadcast_isolation [⟨0, true, false⟩, ⟨1, false, false⟩]).1⟩

/-- C8 is false as stated: broadcasting to two registered sinks of which the
second is closed delivers to the first and skips the second, but the closed
sink is NOT removed — the registered set after the call still contains it. -/
theorem c8_counterexample :
    ((broadcast [⟨0, true, false⟩, ⟨1, false, false⟩]).2 =
      [(0, .delivered), (1, .skippedClosed)]) ∧
    ((broadcast [⟨0, true, false⟩, ⟨1, false, false⟩]).1 =
      [⟨0, true, false⟩, ⟨1, false, false⟩]) ∧
    ((⟨1, false, false⟩ : Sink) ∈ (broadcast [⟨0, true, false⟩, ⟨1, false, false⟩]).1) := by
  refine ⟨rfl, rfl, ?_⟩
  decide

/-- C9: for a validated request whose feed subscription succeeds, the
handler's outcome follows the initiator's result: success resolves 200 with
`{success:true, message}` after a `payment_success` broadcast; a reported
failure resolves 409 exactly when `errorType` is `PHONE_MOVED_TOO_QUICKLY`
and 500 otherwise, with a `payment_failure{errorType}` broadcast; a thrown
initiator resolves 500 with a `payment_failure` (`SERVER_ERROR`) broadcast. -/
theorem c9_initiator_outcomes (st : ServerState) (x : JsNum)
    (merchantAddress : String) (startTime : ℤ) (pay : InitResult)
    (hamt : amountInvalid (.num x) = false) (haddr : ¬ merchantAddress = "") :
    (∀ m, pay = .success m →
      ((initiatePaymentHandler st (.num x) merchantAddress true startTime true
          pay).2 = (200, .okBody m)) ∧
      ((initiatePaymentHandler st (.num x) merchantAddress true startTime true
          pay).1.broadcastLog =
        st.broadcastLog ++ [⟨.status, none, false⟩, ⟨.payment_success, none, false⟩])) ∧
    (∀ m et, pay = .failure m et →
      ((initiatePaymentHandler st (.num x) merchantAddress true startTime true
          pay).2 =
        ((if et = "PHONE_MOVED_TOO_QUICKLY" then 409 else 500), .failBody m et)) ∧
      ((initiatePaymentHandler st (.num x) merchantAddress true startTime true
          pay).1.broadcastLog =
        st.broadcastLog ++ [⟨.status, none, false⟩, failureMsg et])) ∧
    (pay = .thrown →
      ((initiatePaymentHandler st (.num x) merchantAddress true startTime true
          pay).2 = (500, .errBody)) ∧
      ((initiatePaymentHandler st (.num x) merchantAddress true startTime true
          pay).1.broadcastLog =
        st.broadcastLog ++ [⟨.status, none, false⟩, failureMsg "SERVER_ERROR"])) := by
  refine ⟨?_, ?_, ?_⟩
  · intro m hm
    subst hm
    constructor <;> simp [initiatePaymentHandler, hamt, haddr, monitorTransaction]
  · intro m et hm
    subst hm
    constructor <;> simp [initiatePaymentHandler, hamt, haddr, monitorTransaction]
  · intro hm
    subst hm
    constructor <;> simp [initiatePaymentHandler, hamt, haddr, monitorTransaction]

/-- Witness for C9 at a concrete successful payment. -/
theorem c9_witness :
    ((initiatePaymentHandler initialServerState (.num (.fin 25)) "0xabc" true 0 true
        (.success "paid")).2 = (200, .okBody "paid")) ∧
    ((initiatePaymentHandler initialServerState (.num (.fin 25)) "0xabc" true 0 true
        (.success "paid")).1.broadcastLog =
      initialServerState.broadcastLog ++
        [⟨.status, none, false⟩, ⟨.payment_success, none, false⟩]) :=
  (c9_initiator_outcomes initialServerState (.fin 25) "0xabc" 0 (.success "paid")
      (by decide) (by decide)).1 "paid" rfl

/-- The bookkeeping invariant of the price cache's periodic schedule: the
scheduled interval timers that are live are exactly the one recorded in
`refreshInterval` (none, or the single recorded handle). -/
def TimerWF (st : PriceCacheState) : Prop :=
  st.liveIntervals = st.refreshInterval.elim [] (fun id => [id])

instance (st : PriceCacheState) : Decidable (TimerWF st) := by
  unfold TimerWF
  infer_instance

theorem cacheFetchResult_timers (st : PriceCacheState) (c : String)
    (usd : Option ℚ) (now : ℤ) :
    (cacheFetchResult st c usd now).liveIntervals = st.liveIntervals ∧
    (cacheFetchResult st c usd now).refreshInterval = st.refreshInterval := by
  cases usd with
  | none => exact ⟨rfl, rfl⟩
  | some p =>
    by_cases hp : p = 0 <;> simp [cacheFetchResult, hp]

theorem fetchAndCacheAllPrices_timers (fetches : List (String × Option ℚ))
    (now : ℤ) : ∀ st : PriceCacheState,
    (fetchAndCacheAllPrices st fetches now).liveIntervals = st.liveIntervals ∧
    (fetchAndCacheAllPrices st fetches now).refreshInterval = st.refreshInterval := by
  induction fetches with
  | nil => intro st; exact ⟨rfl, rfl⟩
  | cons f t ih =>
    intro st
    have h1 := cacheFetchResult_timers st f.1 f.2 now
    have h2 := ih (cacheFetchResult st f.1 f.2 now)
    simp only [fetchAndCacheAllPrices, List.foldl_cons] at h2 ⊢
    exact ⟨h2.1.trans h1.1, h2.2.trans h1.2⟩

theorem startPeriodicRefresh_wf (st : PriceCacheState) (h : TimerWF st) :
    TimerWF (startPeriodicRefresh st) := by
  unfold TimerWF at h ⊢
  unfold startPeriodicRefresh
  cases hrf : st.refreshInterval with
  | none =>
    rw [hrf] at h
    simp [hrf, h]
  | some id =>
    rw [hrf] at h
    simp [hrf, h]

theorem timerWF_length_le_one (st : PriceCacheState) (h : TimerWF st) :
    st.liveIntervals.length ≤ 1 := by
  unfold TimerWF at h
  rw [h]
  cases st.refreshInterval <;> simp

theorem initCache_wf (st : PriceCacheState) (h : TimerWF st)
    (fetches : List (String × Option ℚ)) (now : ℤ) :
    TimerWF (initCache st fetches now) := by
  unfold initCache
  apply startPeriodicRefresh_wf
  unfold TimerWF
  rw [(fetchAndCacheAllPrices_timers fetches now st).1,
    (fetchAndCacheAllPrices_timers fetches now st).2]
  exact h

theorem foldl_initCache_wf (rounds : List (List (String × Option ℚ) × ℤ)) :
    ∀ st : PriceCacheState, TimerWF st →
    TimerWF (rounds.foldl (fun s r => initCache s r.1 r.2) st) := by
  induction rounds with
  | nil => intro st h; exact h
  | cons r t ih =>
    intro st h
    simp only [List.foldl_cons]
    exact ih _ (initCache_wf st h r.1 r.2)

/-- C10: however many times `PriceCacheService.initialize` runs (each run a
full refresh followed by `startPeriodicRefresh`), the schedule bookkeeping
stays well formed and at most one refresh interval timer is ever live:
`startPeriodicRefresh` clears any previously scheduled interval before
installing the new one, so repeated initialization never stacks schedules. -/
theorem c10_single_refresh_timer (st : PriceCacheState) (hwf : TimerWF st)
    (rounds : List (List (String × Option ℚ) × ℤ)) :
    TimerWF (rounds.foldl (fun s r => initCache s r.1 r.2) st) ∧
    (rounds.foldl (fun s r => initCache s r.1 r.2) st).liveIntervals.length ≤ 1 := by
  have main := foldl_initCache_wf rounds st hwf
  exact ⟨main, timerWF_length_le_one _ main⟩

/-- Witness for C10: two initializations in a row leave one live interval. -/
theorem c10_witness :
    TimerWF (([([("polkadot", some 7)], 0), ([], 60000)] :
        List (List (String × Option ℚ) × ℤ)).foldl
      (fun s r => initCache s r.1 r.2) initialPriceCacheState) ∧
    (([([("polkadot", some 7)], 0), ([], 60000)] :
        List (List (String × Option ℚ) × ℤ)).foldl
      (fun s r => initCache s r.1 r.2) initialPriceCacheState).liveIntervals.length ≤ 1 :=
  c10_single_refresh_timer initialPriceCacheState (by decide)
    [([("polkadot", some 7)], 0), ([], 60000)]

end ThreeBay
